import Mathlib

/-!
Shallow embedding of `ptn2midi.py` (SP-404SX pattern → MIDI/SoundFont
converter).  Pure functions of the script become Lean functions; the
`create_midi_file` event loop becomes explicit state passing over
`MidiState`; `sys.exit(1)` and Python `KeyError` become `Except.error`;
the file system is abstracted as an `isfile : String → Bool` oracle and
the pad dictionary as `pads : Int → Option Pad`.  Audio side effects
(`trim_wav_by_frame_numbers`, `stereo_to_mono`, file writes) only touch
files on disk and return no data, so they are outside the state.
Python 3 `/` is true division; times and trim offsets are modelled in ℚ
(the concrete values appearing here are exact in binary floating point).
-/

namespace SP404SX

/-- Constant from the script: 10 banks. -/
def TOTAL_BANKS : Nat := 10

/-- Constant from the script: 12 pads per bank. -/
def PADS_PER_BANK : Nat := 12

/-- Constant from the script: 96 ticks per quarter note. -/
def PPQ : Nat := 96

/-- Constant from the script: sample directory prefix. -/
def SAMPLE_DIRECTORY : String := "ROLAND/SP-404SX/SMPL/"

/-- Constant from the script: pattern directory prefix. -/
def PATTERN_DIRECTORY : String := "ROLAND/SP-404SX/PTN/"

/-- Constant from the script: 8 bytes per event record. -/
def BYTES_PER_NOTE : Nat := 8

/-- Python `str(n).zfill(w)` / `'%0wd' % n` for nonnegative `n`
(every use in the script formats a nonnegative number). -/
def zfill (w : Nat) (s : String) : String :=
  String.mk (List.replicate (w - s.length) '0') ++ s

/-- `pad_number_to_filename` from the script: pad number (1..120) to sample
file name, e.g. 1 ↦ "A0000001.WAV".  Python `int(x / 12)` truncates toward
zero, hence `Int.tdiv`; Python `%` on a positive modulus is nonnegative,
hence `Int.emod`. -/
def pad_number_to_filename (pad_number : Int) (sampleformat : String) : String :=
  let pn := pad_number - 1
  let bank_number := pn.tdiv (PADS_PER_BANK : Int)
  let bank_name := Char.ofNat (65 + bank_number).toNat
  let bank_pad_number := pn.emod (PADS_PER_BANK : Int) + 1
  String.mk [bank_name] ++ zfill 7 (toString bank_pad_number) ++ "." ++ sampleformat

/-- Python `int(...)` on a decimal-digit string (the only inputs the
script feeds it: the numeric tail of a pattern name). -/
def parse_int (s : String) : Nat :=
  s.data.foldl (fun acc c => acc * 10 + (c.toNat - 48)) 0

/-- `pattern_name_to_filename` from the script: pattern name (e.g. "B12") to
pattern file name (e.g. "PTN00023.BIN").  `name[0]` is `String.front`,
`name[1:]` is `String.drop 1`. -/
def pattern_name_to_filename (pattern_name : String) : String :=
  let x : Int := ((pattern_name.front.toUpper.toNat : Int) - 65) * 12
  let y : Int := ((parse_int (pattern_name.drop 1)) % PADS_PER_BANK : Nat)
  "PTN" ++ zfill 5 (toString (x + y)) ++ ".BIN"

/-- Pad record decoded from `PAD_INFO.BIN` by `get_pad_info`
(struct format `>IIIIB????BBBII`).  Field `end` is a Lean keyword and is
rendered `end_`. -/
structure Pad where
  start : Nat
  end_ : Nat
  user_start : Nat
  user_end : Nat
  volume : Nat
  lofi : Bool
  loop : Bool
  gate : Bool
  reverse : Bool
  unknown1 : Nat
  channels : Nat
  tempo_mode : Nat
  tempo : Nat
  user_tempo : Nat
deriving DecidableEq

/-- Event record decoded from a pattern file by `get_pattern`
(struct format `>BBBBBBH`, named `Note` in the script; renamed to avoid a
clash with the emitted MIDI note type). -/
structure Event where
  delay : Nat
  pad : Nat
  bank_switch : Nat
  unknown2 : Nat
  velocity : Nat
  unknown3 : Nat
  length : Nat
deriving DecidableEq

/-- One 8-byte chunk unpacked as `>BBBBBBH` (big-endian u16 last). -/
def unpack_note (bytes : List Nat) : Event :=
  { delay := bytes.getD 0 0
    pad := bytes.getD 1 0
    bank_switch := bytes.getD 2 0
    unknown2 := bytes.getD 3 0
    velocity := bytes.getD 4 0
    unknown3 := bytes.getD 5 0
    length := 256 * bytes.getD 6 0 + bytes.getD 7 0 }

/-- `get_pattern` from the script, over the pattern file's byte content.
The loop `while i < ptn_filesize / 8 - 2` uses Python 3 float division, so
the iteration count is `max 0 (⌈size / 8⌉ - 2)`, which in ℕ is
`(size + 7) / 8 - 2`.  Each iteration reads the next 8 bytes; since
`8 * ((size + 7) / 8 - 2) + 8 ≤ size` whenever the count is positive, no
read ever runs past the end of the file.  The script performs no size
check at all: undersized files simply yield an empty list. -/
def get_pattern (data : List Nat) : List Event :=
  (List.range ((data.length + 7) / BYTES_PER_NOTE - 2)).map
    (fun i => unpack_note (data.drop (BYTES_PER_NOTE * i)))

/-- `notetuple_to_sample_number` from the script; `sys.exit(1)` on an
unexpected `bank_switch` is modelled as `Except.error`. -/
def notetuple_to_sample_number (note : Event) : Except String Int :=
  if note.bank_switch = 64 ∨ note.bank_switch = 0 then
    Except.ok ((note.pad : Int) - 46)
  else if note.bank_switch = 65 ∨ note.bank_switch = 1 then
    Except.ok ((note.pad : Int) - 46 + (PADS_PER_BANK : Int) * 5)
  else
    Except.error ("unexpected value for bank_switch")

/-- `padtuple_to_trim_samplenums` from the script; Python 3 `/` is true
division, modelled in ℚ. -/
def padtuple_to_trim_samplenums (pad : Pad) : ℚ × ℚ :=
  (((pad.user_start : ℚ) - 512) / 2, ((pad.user_end : ℚ) - 512) / 2)

/-- One note handed to `midi_file.addNote` (track and channel are the
constant 0 and are omitted; `volume` is the constant 100). -/
structure Note where
  pitch : Nat
  time : ℚ
  duration : ℚ
  volume : Nat
deriving DecidableEq

/-- The mutable locals of the `create_midi_file` loop, plus the list of
notes accumulated inside the external `MIDIFile` object.
`note_path_to_pitch` is a Python dict built by insertion only, modelled as
an insertion-ordered association list with unique keys. -/
structure MidiState where
  note_path_to_pitch : List (String × Nat)
  next_available_pitch : Nat
  wave_table_list : List String
  path_list : List String
  time_in_beats_for_next_note : ℚ
  midi_notes : List Note
deriving DecidableEq

/-- The loop's initial state (`next_available_pitch = 36`, everything
else empty / zero). -/
def initState : MidiState :=
  { note_path_to_pitch := []
    next_available_pitch := 36
    wave_table_list := []
    path_list := []
    time_in_beats_for_next_note := 0
    midi_notes := [] }

/-- Tail of every loop iteration:
`time_in_beats_for_next_note += note.delay / (PPQ * 1.0)`. -/
def advanceTime (note : Event) (st : MidiState) : MidiState :=
  { st with time_in_beats_for_next_note :=
      st.time_in_beats_for_next_note + (note.delay : ℚ) / (PPQ : ℚ) }

/-- Lines 166–167 of the script: append the filename and full path to
`wave_table_list` / `path_list` (this happens before the existence check,
so missing samples are appended too). -/
def appendTables (note_filename note_path : String) (st : MidiState) : MidiState :=
  { st with wave_table_list := st.wave_table_list ++ [note_filename],
            path_list := st.path_list ++ [note_path] }

/-- Lines 168–170 of the script: first-seen sample paths get the next
available pitch (dict insertion order). -/
def bookkeepPitch (note_path : String) (st : MidiState) : MidiState :=
  if (st.note_path_to_pitch.lookup note_path).isNone then
    let entry := [(note_path, st.next_available_pitch)]
    { st with note_path_to_pitch := st.note_path_to_pitch ++ entry,
              next_available_pitch := st.next_available_pitch + 1 }
  else st

/-- One iteration of the `for note in notes` loop of `create_midi_file`.
`sys.exit(1)` inside `notetuple_to_sample_number` and a `KeyError` on
`pads[...]` abort the run (`Except.error`); the trim / downmix calls only
write temporary files and are recorded by computing their arguments. -/
def step (sampleformat path : String) (isfile : String → Bool)
    (pads : Int → Option Pad) (st : MidiState) (note : Event) :
    Except String MidiState :=
  if note.pad ≠ 128 then
    match notetuple_to_sample_number note with
    | Except.error msg => Except.error msg
    | Except.ok sample_number =>
      let note_filename := pad_number_to_filename sample_number sampleformat
      let note_path := path ++ SAMPLE_DIRECTORY ++ note_filename
      let st2 := bookkeepPitch note_path (appendTables note_filename note_path st)
      if isfile note_path then
        match pads sample_number with
        | none => Except.error ("KeyError")
        | some pad =>
          let _trims := padtuple_to_trim_samplenums pad
          let len : ℚ := (note.length : ℚ) / (PPQ : ℚ)
          Except.ok (advanceTime note
            { st2 with midi_notes := st2.midi_notes ++
                [{ pitch := (st2.note_path_to_pitch.lookup note_path).getD 0
                   time := st2.time_in_beats_for_next_note
                   duration := len
                   volume := 100 }] })
      else
        Except.ok (advanceTime note st2)
  else
    Except.ok (advanceTime note st)

/-- The whole `for note in notes` loop: left-to-right, stopping at the
first fatal error. -/
def run_notes (sampleformat path : String) (isfile : String → Bool)
    (pads : Int → Option Pad) : MidiState → List Event → Except String MidiState
  | st, [] => Except.ok st
  | st, note :: rest =>
    match step sampleformat path isfile pads st note with
    | Except.error msg => Except.error msg
    | Except.ok st2 => run_notes sampleformat path isfile pads st2 rest

/-- `create_midi_file` from the script, restricted to its data flow: the
tempo / track-name metadata and the final file writes go to external
libraries and carry no information back into the state. -/
def create_midi_file (sampleformat path : String) (isfile : String → Bool)
    (pads : Int → Option Pad) (notes : List Event) : Except String MidiState :=
  run_notes sampleformat path isfile pads initState notes

/-- One `<zone>` element written by the `create_template` loop. -/
structure Zone where
  begin_key : Int
  end_key : Int
  overridingRootKey : Int
  sampleModes : String
  wavetableId : Nat
deriving DecidableEq

/-- One `<wavetable>` element written by the `create_template` loop. -/
structure Wavetable where
  file : String
  id : Nat
deriving DecidableEq

/-- The data content of the XML document built by `create_template`:
the preset's key range and the per-entry zones and wavetables. -/
structure Template where
  preset_begin : Int
  preset_end : Int
  zones : List Zone
  wavetables : List Wavetable
deriving DecidableEq

/-- `create_template` from the script: `begin_key = 36`,
`end_key = begin_key + len(wave_table_list) - 1`, and one zone plus one
wavetable per entry of `wave_table_list` (the i-th entry, 0-based, gets
key `36 + i` and wavetable id `i + 1`, referencing `path_list[i]`). -/
def create_template (wave_table_list path_list : List String) : Template :=
  { preset_begin := 36
    preset_end := 36 + (wave_table_list.length : Int) - 1
    zones := (List.range wave_table_list.length).map (fun (i : Nat) =>
      { begin_key := 36 + (i : Int)
        end_key := 36 + (i : Int)
        overridingRootKey := 36 + (i : Int)
        sampleModes := "0_LoopNone"
        wavetableId := i + 1 })
    wavetables := (List.range wave_table_list.length).map (fun (i : Nat) =>
      { file := path_list.getD i ("")
        id := i + 1 }) }

/-- State produced by the loop, for the missing-sample branch
(`isfile` false): tables appended and pitch bookkeeping done, no note
emitted, time advanced.  Exactly the composition of the pieces of `step`
that run on that branch. -/
def missingStepState (sampleformat path : String) (sn : Int) (e : Event)
    (st : MidiState) : MidiState :=
  advanceTime e (bookkeepPitch
    (path ++ SAMPLE_DIRECTORY ++ pad_number_to_filename sn sampleformat)
    (appendTables (pad_number_to_filename sn sampleformat)
      (path ++ SAMPLE_DIRECTORY ++ pad_number_to_filename sn sampleformat) st))

/-- The note `step` emits for a non-rest event whose sample file is
present: pitch from the (already updated) path-to-pitch dict, start time
the current cursor, duration `length / PPQ`, volume the constant 100. -/
def presentEmittedNote (sampleformat path : String) (sn : Int) (note : Event)
    (st : MidiState) : Note :=
  let note_path := path ++ SAMPLE_DIRECTORY ++ pad_number_to_filename sn sampleformat
  let st2 := bookkeepPitch note_path
    (appendTables (pad_number_to_filename sn sampleformat) note_path st)
  { pitch := (st2.note_path_to_pitch.lookup note_path).getD 0
    time := st2.time_in_beats_for_next_note
    duration := (note.length : ℚ) / (PPQ : ℚ)
    volume := 100 }

/-- State produced by the loop for a non-rest event whose sample file is
present and whose pad record is found: tables appended, pitch
bookkeeping done, one note emitted, time advanced — the exact composition
of the pieces of `step` on that branch. -/
def presentStepState (sampleformat path : String) (sn : Int) (note : Event)
    (st : MidiState) : MidiState :=
  let note_path := path ++ SAMPLE_DIRECTORY ++ pad_number_to_filename sn sampleformat
  let st2 := bookkeepPitch note_path
    (appendTables (pad_number_to_filename sn sampleformat) note_path st)
  advanceTime note { st2 with midi_notes := st2.midi_notes ++
    [presentEmittedNote sampleformat path sn note st] }

/-- Extract the success state of a run (total helper for writing closed
statements about concrete runs). -/
def okState (r : Except String MidiState) : MidiState :=
  match r with
  | Except.ok s => s
  | Except.error _ => initState

/-- A concrete pad record for the worked examples (`user_start = 1024`,
`user_end = 2048`, stereo). -/
def examplePad : Pad :=
  { start := 0, end_ := 0, user_start := 1024, user_end := 2048
    volume := 127, lofi := false, loop := false, gate := false
    reverse := false, unknown1 := 0, channels := 2, tempo_mode := 0
    tempo := 120, user_tempo := 120 }

/-- File-system oracle on which every sample file exists. -/
def allFiles : String → Bool := fun _ => true

/-- File-system oracle on which no sample file exists. -/
def noFiles : String → Bool := fun _ => false

/-- The pad dictionary as built by `get_pad_info`: keys exactly 1..120. -/
def pads120 : Int → Option Pad :=
  fun k => if 1 ≤ k ∧ k ≤ 120 then some examplePad else none

/-- The three-event sequence of the spec's worked timeline example. -/
def c1_events : List Event :=
  [{ delay := 0, pad := 47, bank_switch := 0, unknown2 := 0, velocity := 127
     unknown3 := 0, length := 96 },
   { delay := 48, pad := 128, bank_switch := 0, unknown2 := 0, velocity := 0
     unknown3 := 0, length := 0 },
   { delay := 0, pad := 47, bank_switch := 0, unknown2 := 0, velocity := 127
     unknown3 := 0, length := 192 }]

/-- A mixed sequence (note, rest, note in the extended banks) used to
instantiate the general timeline theorems. -/
def c2_events : List Event :=
  [{ delay := 0, pad := 47, bank_switch := 0, unknown2 := 0, velocity := 127
     unknown3 := 0, length := 96 },
   { delay := 24, pad := 128, bank_switch := 7, unknown2 := 0, velocity := 0
     unknown3 := 0, length := 0 },
   { delay := 48, pad := 48, bank_switch := 64, unknown2 := 0, velocity := 127
     unknown3 := 0, length := 192 }]

/-- Concrete run for the general timeline theorems. -/
def c2_st : MidiState :=
  okState (create_midi_file ("WAV") ("/sd/") allFiles pads120 c2_events)

/-- Two triggers of the same pad: one distinct sample, two occurrences. -/
def c5_events : List Event :=
  [{ delay := 0, pad := 47, bank_switch := 0, unknown2 := 0, velocity := 127
     unknown3 := 0, length := 96 },
   { delay := 0, pad := 47, bank_switch := 0, unknown2 := 0, velocity := 127
     unknown3 := 0, length := 96 }]

/-- Result state of the duplicate-sample run (all files present). -/
def c5_st : MidiState :=
  okState (create_midi_file ("WAV") ("") allFiles pads120 c5_events)

/-- A non-rest event used in the missing-sample scenario. -/
def c6_event : Event :=
  { delay := 24, pad := 47, bank_switch := 0, unknown2 := 0, velocity := 127
    unknown3 := 0, length := 96 }

/-- A single non-rest event whose sample file is missing. -/
def c6_events : List Event := [c6_event]

/-- Result state of the missing-sample run (no files present). -/
def c6_st : MidiState :=
  okState (create_midi_file ("WAV") ("") noFiles pads120 c6_events)

@[simp]
lemma appendTables_time (f p : String) (st : MidiState) :
    (appendTables f p st).time_in_beats_for_next_note =
      st.time_in_beats_for_next_note := rfl

@[simp]
lemma appendTables_notes (f p : String) (st : MidiState) :
    (appendTables f p st).midi_notes = st.midi_notes := rfl

@[simp]
lemma appendTables_wtl (f p : String) (st : MidiState) :
    (appendTables f p st).wave_table_list = st.wave_table_list ++ [f] := rfl

@[simp]
lemma bookkeepPitch_time (p : String) (st : MidiState) :
    (bookkeepPitch p st).time_in_beats_for_next_note =
      st.time_in_beats_for_next_note := by
  unfold bookkeepPitch; split <;> rfl

@[simp]
lemma bookkeepPitch_notes (p : String) (st : MidiState) :
    (bookkeepPitch p st).midi_notes = st.midi_notes := by
  unfold bookkeepPitch; split <;> rfl

@[simp]
lemma bookkeepPitch_wtl (p : String) (st : MidiState) :
    (bookkeepPitch p st).wave_table_list = st.wave_table_list := by
  unfold bookkeepPitch; split <;> rfl

@[simp]
lemma appendTables_paths (f p : String) (st : MidiState) :
    (appendTables f p st).path_list = st.path_list ++ [p] := rfl

@[simp]
lemma appendTables_nptp (f p : String) (st : MidiState) :
    (appendTables f p st).note_path_to_pitch = st.note_path_to_pitch := rfl

@[simp]
lemma appendTables_nap (f p : String) (st : MidiState) :
    (appendTables f p st).next_available_pitch = st.next_available_pitch := rfl

@[simp]
lemma bookkeepPitch_paths (p : String) (st : MidiState) :
    (bookkeepPitch p st).path_list = st.path_list := by
  unfold bookkeepPitch; split <;> rfl

@[simp]
lemma advanceTime_paths (e : Event) (st : MidiState) :
    (advanceTime e st).path_list = st.path_list := rfl

@[simp]
lemma advanceTime_nptp (e : Event) (st : MidiState) :
    (advanceTime e st).note_path_to_pitch = st.note_path_to_pitch := rfl

@[simp]
lemma advanceTime_nap (e : Event) (st : MidiState) :
    (advanceTime e st).next_available_pitch = st.next_available_pitch := rfl

@[simp]
lemma advanceTime_time (e : Event) (st : MidiState) :
    (advanceTime e st).time_in_beats_for_next_note =
      st.time_in_beats_for_next_note + (e.delay : ℚ) / (PPQ : ℚ) := rfl

@[simp]
lemma advanceTime_notes (e : Event) (st : MidiState) :
    (advanceTime e st).midi_notes = st.midi_notes := rfl

@[simp]
lemma advanceTime_wtl (e : Event) (st : MidiState) :
    (advanceTime e st).wave_table_list = st.wave_table_list := rfl

/-- C1 (claim): the worked three-event example with every sample file
present yields exactly the notes (36, 0, 1.0) and (36, 0.5, 2.0): the
second trigger of pad 47 reuses pitch 36, and the rest event emits no
note while advancing time by half a beat. -/
theorem C1_timeline_example :
    (create_midi_file ("WAV") ("") allFiles pads120 c1_events).map
        (fun s => s.midi_notes) =
      Except.ok
        [{ pitch := 36, time := 0, duration := 1, volume := 100 },
         { pitch := 36, time := 1/2, duration := 2, volume := 100 }] := by
  simp only [c1_events, create_midi_file, run_notes, step,
    notetuple_to_sample_number, initState, bookkeepPitch, appendTables,
    advanceTime, allFiles, pads120, padtuple_to_trim_samplenums, Except.map,
    List.lookup, PPQ]
  norm_num

/-- C3 (claim): `notetuple_to_sample_number` returns `pad − 46` when
`bank_switch ∈ {0, 64}`, `pad − 46 + 60` when `bank_switch ∈ {1, 65}`,
and fails (the script's `sys.exit(1)`) for every other value; in
particular pad 47 resolves to 1 in the base banks and to 61 in the
extended banks. -/
theorem C3_bank_switch_resolution (note : Event) :
    (note.bank_switch = 0 ∨ note.bank_switch = 64 →
      notetuple_to_sample_number note = Except.ok ((note.pad : Int) - 46))
  ∧ (note.bank_switch = 1 ∨ note.bank_switch = 65 →
      notetuple_to_sample_number note = Except.ok ((note.pad : Int) - 46 + 60))
  ∧ (note.bank_switch ≠ 0 → note.bank_switch ≠ 64 →
      note.bank_switch ≠ 1 → note.bank_switch ≠ 65 →
      notetuple_to_sample_number note =
        Except.error ("unexpected value for bank_switch"))
  ∧ notetuple_to_sample_number
      { delay := 0, pad := 47, bank_switch := 0, unknown2 := 0
        velocity := 0, unknown3 := 0, length := 0 } = Except.ok 1
  ∧ notetuple_to_sample_number
      { delay := 0, pad := 47, bank_switch := 65, unknown2 := 0
        velocity := 0, unknown3 := 0, length := 0 } = Except.ok 61 := by
  refine ⟨?_, ?_, ?_, rfl, rfl⟩
  · rintro (h | h) <;> simp [notetuple_to_sample_number, h]
  · rintro (h | h) <;> simp [notetuple_to_sample_number, h, PADS_PER_BANK]
  · intro h0 h64 h1 h65
    simp [notetuple_to_sample_number, h0, h64, h1, h65]

/-- C3 witness: bank_switch 2 is outside the four valid values and makes
the resolver fail. -/
theorem C3_bank_switch_resolution_witness :
    ((2 : Nat) ≠ 0 ∧ (2 : Nat) ≠ 64 ∧ (2 : Nat) ≠ 1 ∧ (2 : Nat) ≠ 65)
  ∧ notetuple_to_sample_number
      { delay := 0, pad := 5, bank_switch := 2, unknown2 := 0
        velocity := 0, unknown3 := 0, length := 0 } =
        Except.error ("unexpected value for bank_switch") :=
  ⟨by decide,
   (C3_bank_switch_resolution
      { delay := 0, pad := 5, bank_switch := 2, unknown2 := 0
        velocity := 0, unknown3 := 0, length := 0 }).2.2.1
     (by decide) (by decide) (by decide) (by decide)⟩

/-- C4 counterexample: the claim's worked values are wrong on the code:
"A1" maps to file id 1 (file `PTN00001.BIN`), not 0, and "B11" maps to
file id 23 (file `PTN00023.BIN`), not 22 — exactly as the script's own
assertions state. -/
theorem C4_counterexample :
    pattern_name_to_filename ("A1") = "PTN00001.BIN"
  ∧ pattern_name_to_filename ("A1") ≠ "PTN00000.BIN"
  ∧ pattern_name_to_filename ("B11") = "PTN00023.BIN"
  ∧ pattern_name_to_filename ("B11") ≠ "PTN00022.BIN" := by
  refine ⟨rfl, ?_, rfl, ?_⟩ <;> decide

/-- C4 (amended): `pattern_name_to_filename` computes the file id as
`(toupper(name[0]) − 'A') × 12 + (integer(name[1:]) mod 12)` and embeds
it in the zero-padded `PTN#####.BIN` template; under this scheme "A1"
maps to id 1 (`PTN00001.BIN`) and "B11" to id 23 (`PTN00023.BIN`). -/
theorem C4_amended_file_id :
    (∀ name : String, pattern_name_to_filename name =
      "PTN" ++ zfill 5 (toString ((((name.front.toUpper.toNat : Int) - 65) * 12) +
        ((((parse_int (name.drop 1)) % 12 : Nat)) : Int))) ++ ".BIN")
  ∧ pattern_name_to_filename ("A1") = "PTN00001.BIN"
  ∧ pattern_name_to_filename ("B11") = "PTN00023.BIN" :=
  ⟨fun _ => rfl, rfl, rfl⟩

/-- C9 (claim): the trim-frame computation is
`((user_start − 512) / 2, (user_end − 512) / 2)` (true division, as frame
counts); in particular `user_start = 1024, user_end = 2048` gives
`(256, 768)`. -/
theorem C9_trim_frames :
    (∀ pad : Pad, padtuple_to_trim_samplenums pad =
      (((pad.user_start : ℚ) - 512) / 2, ((pad.user_end : ℚ) - 512) / 2))
  ∧ padtuple_to_trim_samplenums examplePad = (256, 768) :=
  ⟨fun _ => rfl, by norm_num [padtuple_to_trim_samplenums, examplePad]⟩

lemma step_rest {sampleformat path : String} {isfile : String → Bool}
    {pads : Int → Option Pad} {st : MidiState} {note : Event}
    (hp : note.pad = 128) :
    step sampleformat path isfile pads st note =
      Except.ok (advanceTime note st) := by
  simp [step, hp]

lemma step_invalid_bank {sampleformat path : String} {isfile : String → Bool}
    {pads : Int → Option Pad} {st : MidiState} {note : Event} {msg : String}
    (hp : note.pad ≠ 128)
    (hsn : notetuple_to_sample_number note = Except.error msg) :
    step sampleformat path isfile pads st note = Except.error msg := by
  simp [step, hp, hsn]

lemma step_missing {sampleformat path : String} {isfile : String → Bool}
    {pads : Int → Option Pad} {st : MidiState} {note : Event} {sn : Int}
    (hp : note.pad ≠ 128)
    (hsn : notetuple_to_sample_number note = Except.ok sn)
    (hf : isfile (path ++ SAMPLE_DIRECTORY ++
      pad_number_to_filename sn sampleformat) = false) :
    step sampleformat path isfile pads st note =
      Except.ok (missingStepState sampleformat path sn note st) := by
  simp [step, hp, hsn, hf, missingStepState]

lemma step_keyerror {sampleformat path : String} {isfile : String → Bool}
    {pads : Int → Option Pad} {st : MidiState} {note : Event} {sn : Int}
    (hp : note.pad ≠ 128)
    (hsn : notetuple_to_sample_number note = Except.ok sn)
    (hf : isfile (path ++ SAMPLE_DIRECTORY ++
      pad_number_to_filename sn sampleformat) = true)
    (hpd : pads sn = none) :
    step sampleformat path isfile pads st note = Except.error ("KeyError") := by
  simp [step, hp, hsn, hf, hpd]

lemma step_present {sampleformat path : String} {isfile : String → Bool}
    {pads : Int → Option Pad} {st : MidiState} {note : Event} {sn : Int}
    {p : Pad} (hp : note.pad ≠ 128)
    (hsn : notetuple_to_sample_number note = Except.ok sn)
    (hf : isfile (path ++ SAMPLE_DIRECTORY ++
      pad_number_to_filename sn sampleformat) = true)
    (hpd : pads sn = some p) :
    step sampleformat path isfile pads st note =
      Except.ok (presentStepState sampleformat path sn note st) := by
  simp [step, hp, hsn, hf, hpd, presentStepState, presentEmittedNote]

@[simp]
lemma missingStepState_time (sampleformat path : String) (sn : Int)
    (note : Event) (st : MidiState) :
    (missingStepState sampleformat path sn note st).time_in_beats_for_next_note =
      st.time_in_beats_for_next_note + (note.delay : ℚ) / (PPQ : ℚ) := by
  simp [missingStepState]

@[simp]
lemma missingStepState_notes (sampleformat path : String) (sn : Int)
    (note : Event) (st : MidiState) :
    (missingStepState sampleformat path sn note st).midi_notes =
      st.midi_notes := by
  simp [missingStepState]

@[simp]
lemma missingStepState_wtl (sampleformat path : String) (sn : Int)
    (note : Event) (st : MidiState) :
    (missingStepState sampleformat path sn note st).wave_table_list =
      st.wave_table_list ++ [pad_number_to_filename sn sampleformat] := by
  simp [missingStepState]

@[simp]
lemma presentStepState_time (sampleformat path : String) (sn : Int)
    (note : Event) (st : MidiState) :
    (presentStepState sampleformat path sn note st).time_in_beats_for_next_note =
      st.time_in_beats_for_next_note + (note.delay : ℚ) / (PPQ : ℚ) := by
  simp [presentStepState]

@[simp]
lemma presentStepState_wtl (sampleformat path : String) (sn : Int)
    (note : Event) (st : MidiState) :
    (presentStepState sampleformat path sn note st).wave_table_list =
      st.wave_table_list ++ [pad_number_to_filename sn sampleformat] := by
  simp [presentStepState]

@[simp]
lemma presentEmittedNote_time (sampleformat path : String) (sn : Int)
    (note : Event) (st : MidiState) :
    (presentEmittedNote sampleformat path sn note st).time =
      st.time_in_beats_for_next_note := by
  simp [presentEmittedNote]

lemma presentStepState_notes (sampleformat path : String) (sn : Int)
    (note : Event) (st : MidiState) :
    (presentStepState sampleformat path sn note st).midi_notes =
      st.midi_notes ++ [presentEmittedNote sampleformat path sn note st] := by
  simp [presentStepState]

lemma step_ok_facts {sampleformat path : String} {isfile : String → Bool}
    {pads : Int → Option Pad} {st st2 : MidiState} {note : Event}
    (h : step sampleformat path isfile pads st note = Except.ok st2) :
    st2.time_in_beats_for_next_note =
      st.time_in_beats_for_next_note + (note.delay : ℚ) / (PPQ : ℚ)
  ∧ (st2.midi_notes = st.midi_notes ∨
      ∃ n : Note, n.time = st.time_in_beats_for_next_note ∧
        st2.midi_notes = st.midi_notes ++ [n])
  ∧ st2.wave_table_list.length =
      st.wave_table_list.length + (if note.pad = 128 then 0 else 1) := by
  by_cases hp : note.pad = 128
  · rw [step_rest hp] at h
    injection h with h2
    subst h2
    simp [hp]
  · cases hsn : notetuple_to_sample_number note with
    | error msg => rw [step_invalid_bank hp hsn] at h; exact absurd h (by simp)
    | ok sn =>
      cases hf : isfile (path ++ SAMPLE_DIRECTORY ++
          pad_number_to_filename sn sampleformat) with
      | false =>
        rw [step_missing hp hsn hf] at h
        injection h with h2
        subst h2
        simp [hp]
      | true =>
        cases hpd : pads sn with
        | none => rw [step_keyerror hp hsn hf hpd] at h; exact absurd h (by simp)
        | some p =>
          rw [step_present hp hsn hf hpd] at h
          injection h with h2
          subst h2
          exact ⟨by simp, Or.inr ⟨presentEmittedNote sampleformat path sn note st,
            by simp, presentStepState_notes sampleformat path sn note st⟩,
            by simp [hp]⟩

lemma run_notes_facts (sampleformat path : String) (isfile : String → Bool)
    (pads : Int → Option Pad) :
    ∀ (events : List Event) (s0 st : MidiState),
      run_notes sampleformat path isfile pads s0 events = Except.ok st →
      (st.time_in_beats_for_next_note = s0.time_in_beats_for_next_note +
        (events.map (fun e => (e.delay : ℚ) / (PPQ : ℚ))).sum)
    ∧ (st.wave_table_list.length = s0.wave_table_list.length +
        events.countP (fun e => decide (e.pad ≠ 128)))
    ∧ ((List.Pairwise (· ≤ ·) (s0.midi_notes.map Note.time) ∧
          ∀ n ∈ s0.midi_notes, n.time ≤ s0.time_in_beats_for_next_note) →
        (List.Pairwise (· ≤ ·) (st.midi_notes.map Note.time) ∧
          ∀ n ∈ st.midi_notes, n.time ≤ st.time_in_beats_for_next_note))
  | [], s0, st, h => by
      simp only [run_notes, Except.ok.injEq] at h
      subst h
      simp
  | e :: es, s0, st, h => by
      cases hstep : step sampleformat path isfile pads s0 e with
      | error msg => rw [run_notes, hstep] at h; exact absurd h (by simp)
      | ok s1 =>
        rw [run_notes, hstep] at h
        obtain ⟨ih_time, ih_wtl, ih_inv⟩ :=
          run_notes_facts sampleformat path isfile pads es s1 st h
        obtain ⟨ht, hn, hw⟩ := step_ok_facts hstep
        have hd : s0.time_in_beats_for_next_note ≤ s1.time_in_beats_for_next_note := by
          rw [ht]
          have h0 : (0 : ℚ) ≤ (e.delay : ℚ) / (PPQ : ℚ) := by positivity
          linarith
        refine ⟨?_, ?_, ?_⟩
        · rw [ih_time, ht, List.map_cons, List.sum_cons]; ring
        · rw [ih_wtl, hw, List.countP_cons]
          by_cases hp : e.pad = 128
          · simp [hp]
          · simp [hp]
            omega
        · intro hinv0
          apply ih_inv
          rcases hn with hsame | ⟨n, hnt, happ⟩
          · exact ⟨by rw [hsame]; exact hinv0.1,
              fun m hm => le_trans (hinv0.2 m (by rw [← hsame]; exact hm)) hd⟩
          · constructor
            · rw [happ, List.map_append, List.pairwise_append]
              refine ⟨hinv0.1, by simp, ?_⟩
              intro a ha b hb
              simp only [List.map_cons, List.map_nil, List.mem_singleton] at hb
              subst hb
              obtain ⟨m, hm, rfl⟩ := List.mem_map.mp ha
              rw [hnt]
              exact hinv0.2 m hm
            · intro m hm
              rw [happ] at hm
              rcases List.mem_append.mp hm with hm2 | hm2
              · exact le_trans (hinv0.2 m hm2) hd
              · rw [List.mem_singleton.mp hm2, hnt]
                exact hd

/-- C2 (claim): on every successful run the time cursor is advanced by
`delay / PPQ` exactly once per event — rests and note-skipped events
included — so the final cursor equals the sum of all the events' delays
in beats, and the emitted note list (built by appending in event order)
has monotonically non-decreasing start times. -/
theorem C2_unconditional_advance_and_order (sampleformat path : String)
    (isfile : String → Bool) (pads : Int → Option Pad)
    (events : List Event) (st : MidiState)
    (h : create_midi_file sampleformat path isfile pads events = Except.ok st) :
    st.time_in_beats_for_next_note =
      (events.map (fun e => (e.delay : ℚ) / (PPQ : ℚ))).sum
  ∧ List.Pairwise (· ≤ ·) (st.midi_notes.map Note.time) := by
  obtain ⟨ht, _, hinv⟩ :=
    run_notes_facts sampleformat path isfile pads events initState st h
  exact ⟨by simpa [initState] using ht, (hinv (by simp [initState])).1⟩

/-- C2 witness: the mixed three-event run (note, rest, extended-bank
note) succeeds and satisfies the cursor-sum and monotonicity facts. -/
theorem C2_unconditional_advance_and_order_witness :
    (create_midi_file ("WAV") ("/sd/") allFiles pads120 c2_events = Except.ok c2_st)
  ∧ (c2_st.time_in_beats_for_next_note =
      (c2_events.map (fun e => (e.delay : ℚ) / (PPQ : ℚ))).sum
    ∧ List.Pairwise (· ≤ ·) (c2_st.midi_notes.map Note.time)) :=
  ⟨rfl, C2_unconditional_advance_and_order ("WAV") ("/sd/") allFiles pads120
    c2_events c2_st rfl⟩

/-- C5 counterexample: triggering the same pad twice gives one distinct
referenced sample but `create_template` builds one zone per event
occurrence: two zones and preset key range ending at 37, where the claim
predicts one zone and range [36, 36]. -/
theorem C5_counterexample :
    (create_midi_file ("WAV") ("") allFiles pads120 c5_events = Except.ok c5_st)
  ∧ c5_st.note_path_to_pitch.length = 1
  ∧ (create_template c5_st.wave_table_list c5_st.path_list).zones.length = 2
  ∧ (create_template c5_st.wave_table_list c5_st.path_list).zones.length ≠ 1
  ∧ (create_template c5_st.wave_table_list c5_st.path_list).preset_end = 37
  ∧ (36 : Int) + (1 : Int) - 1 = 36 :=
  ⟨rfl, rfl, rfl, by decide, rfl, by decide⟩

/-- C5 (amended): `create_template` builds one zone (and one wavetable)
per `wave_table_list` entry, i.e. per non-rest event occurrence — not per
distinct sample; the i-th zone covers exactly key `36 + i`
(begin = end = root) and is non-looping, and the preset key range is
`[36, 36 + M − 1]` where M is the number of non-rest event occurrences. -/
theorem C5_amended_zones (wtl pl : List String) :
    ((create_template wtl pl).zones.length = wtl.length)
  ∧ (∀ z ∈ (create_template wtl pl).zones,
      z.begin_key = z.end_key ∧ z.begin_key = z.overridingRootKey ∧
        z.sampleModes = "0_LoopNone")
  ∧ ((create_template wtl pl).zones.map Zone.begin_key =
      (List.range wtl.length).map (fun (i : Nat) => 36 + (i : Int)))
  ∧ (create_template wtl pl).preset_begin = 36
  ∧ (create_template wtl pl).preset_end = 36 + (wtl.length : Int) - 1
  ∧ (∀ (sampleformat path : String) (isfile : String → Bool)
      (pads : Int → Option Pad) (events : List Event) (st : MidiState),
      create_midi_file sampleformat path isfile pads events = Except.ok st →
      st.wave_table_list.length =
        events.countP (fun e => decide (e.pad ≠ 128))) := by
  refine ⟨?_, ?_, ?_, rfl, rfl, ?_⟩
  · simp [create_template]
  · intro z hz
    simp only [create_template, List.mem_map, List.mem_range] at hz
    obtain ⟨i, hi, rfl⟩ := hz
    exact ⟨rfl, rfl, rfl⟩
  · simp only [create_template, List.map_map]
    rfl
  · intro sampleformat path isfile pads events st h
    have hw :=
      (run_notes_facts sampleformat path isfile pads events initState st h).2.1
    simpa [initState] using hw

/-- C5 witness: in the duplicate-pad run the wave-table list has one
entry per non-rest event occurrence. -/
theorem C5_amended_zones_witness :
    (create_midi_file ("WAV") ("") allFiles pads120 c5_events = Except.ok c5_st)
  ∧ c5_st.wave_table_list.length =
      c5_events.countP (fun e => decide (e.pad ≠ 128)) :=
  ⟨rfl, (C5_amended_zones c5_st.wave_table_list c5_st.path_list).2.2.2.2.2
    ("WAV") ("") allFiles pads120 c5_events c5_st rfl⟩

/-- C6 counterexample: with the single event's sample file missing the
run still succeeds, no note is emitted, pitch bookkeeping and the time
advance happen — but the instrument does not omit the zone: the missing
sample's wave-table entry is appended before the existence check, so
`create_template` still builds one zone for it. -/
theorem C6_counterexample :
    (create_midi_file ("WAV") ("") noFiles pads120 c6_events = Except.ok c6_st)
  ∧ c6_st.midi_notes = []
  ∧ c6_st.wave_table_list = ["A0000001.WAV"]
  ∧ c6_st.note_path_to_pitch = [("ROLAND/SP-404SX/SMPL/A0000001.WAV", 36)]
  ∧ c6_st.next_available_pitch = 37
  ∧ c6_st.time_in_beats_for_next_note = 1/4
  ∧ (create_template c6_st.wave_table_list c6_st.path_list).zones.length = 1
  ∧ (create_template c6_st.wave_table_list c6_st.path_list).zones.length ≠ 0 := by
  refine ⟨rfl, rfl, rfl, rfl, rfl, ?_, rfl, by decide⟩
  simp only [c6_st, okState, c6_events, c6_event, create_midi_file, run_notes,
    step, notetuple_to_sample_number, initState, bookkeepPitch, appendTables,
    advanceTime, noFiles, pads120, PPQ, List.lookup]
  norm_num

/-- C6 (amended): a missing sample file never aborts the run: the event's
`step` succeeds, emits no note, advances time by `delay / PPQ`, appends
the filename and path to the tables anyway (so the instrument keeps a
zone for it), and performs the usual first-seen pitch bookkeeping. -/
theorem C6_missing_sample_step (sampleformat path : String)
    (isfile : String → Bool) (pads : Int → Option Pad) (st : MidiState)
    (e : Event) (sn : Int)
    (h1 : e.pad ≠ 128)
    (h2 : notetuple_to_sample_number e = Except.ok sn)
    (h3 : isfile (path ++ SAMPLE_DIRECTORY ++
      pad_number_to_filename sn sampleformat) = false) :
    step sampleformat path isfile pads st e =
      Except.ok (missingStepState sampleformat path sn e st)
  ∧ (missingStepState sampleformat path sn e st).midi_notes = st.midi_notes
  ∧ (missingStepState sampleformat path sn e st).time_in_beats_for_next_note =
      st.time_in_beats_for_next_note + (e.delay : ℚ) / (PPQ : ℚ)
  ∧ (missingStepState sampleformat path sn e st).wave_table_list =
      st.wave_table_list ++ [pad_number_to_filename sn sampleformat]
  ∧ (missingStepState sampleformat path sn e st).path_list =
      st.path_list ++
        [path ++ SAMPLE_DIRECTORY ++ pad_number_to_filename sn sampleformat]
  ∧ ((st.note_path_to_pitch.lookup (path ++ SAMPLE_DIRECTORY ++
        pad_number_to_filename sn sampleformat)).isNone →
      (missingStepState sampleformat path sn e st).note_path_to_pitch =
        st.note_path_to_pitch ++ [(path ++ SAMPLE_DIRECTORY ++
          pad_number_to_filename sn sampleformat, st.next_available_pitch)]
    ∧ (missingStepState sampleformat path sn e st).next_available_pitch =
        st.next_available_pitch + 1) := by
  refine ⟨step_missing h1 h2 h3, by simp, by simp, by simp,
    by simp [missingStepState], ?_⟩
  intro hfree
  constructor
  · simp [missingStepState, bookkeepPitch, hfree]
  · simp [missingStepState, bookkeepPitch, hfree]

/-- C6 witness: the concrete missing-sample event, resolved to sample 1,
steps successfully from the initial state and emits no note. -/
theorem C6_missing_sample_step_witness :
    ((c6_event.pad ≠ 128
      ∧ notetuple_to_sample_number c6_event = Except.ok 1
      ∧ noFiles ("" ++ SAMPLE_DIRECTORY ++
          pad_number_to_filename 1 ("WAV")) = false)
  ∧ (step ("WAV") ("") noFiles pads120 initState c6_event =
      Except.ok (missingStepState ("WAV") ("") 1 c6_event initState)
    ∧ (missingStepState ("WAV") ("") 1 c6_event initState).midi_notes =
        initState.midi_notes)) :=
  ⟨⟨by decide, rfl, rfl⟩,
   ⟨(C6_missing_sample_step ("WAV") ("") noFiles pads120 initState c6_event 1
      (by decide) rfl rfl).1,
    (C6_missing_sample_step ("WAV") ("") noFiles pads120 initState c6_event 1
      (by decide) rfl rfl).2.1⟩⟩

/-- C7 counterexample: the loop bound `i < filesize / 8 - 2` uses float
(true) division, so a 17-byte file yields one event although
`floor(17/8) − 2 = 0`; and an 8-byte file (too small to hold the 16-byte
trailer) is not rejected — the parser just returns an empty list, there
is no truncation check in the code at all. -/
theorem C7_counterexample :
    (get_pattern (List.replicate 17 0)).length = 1
  ∧ (17 : Nat) / 8 - 2 = 0
  ∧ get_pattern (List.replicate 8 0) = [] :=
  ⟨rfl, rfl, rfl⟩

/-- C7 (amended): `get_pattern` reads `max 0 (⌈size/8⌉ − 2)` eight-byte
records in file order from offset 0 — which equals `floor(size/8) − 2`
exactly when the size is a multiple of 8 and at least 16; a file too
small for the 16-byte trailer produces an empty event list with no error
(the code performs no size check). -/
theorem C7_amended_event_count (data : List Nat) :
    ((get_pattern data).length = (data.length + 7) / 8 - 2)
  ∧ (8 ∣ data.length → 16 ≤ data.length →
      (get_pattern data).length = data.length / 8 - 2)
  ∧ (data.length ≤ 16 → get_pattern data = [])
  ∧ (∀ i, i < (get_pattern data).length →
      (get_pattern data).getD i (unpack_note []) =
        unpack_note (data.drop (8 * i))) := by
  have hlen : (get_pattern data).length = (data.length + 7) / 8 - 2 := by
    simp [get_pattern, BYTES_PER_NOTE]
  refine ⟨hlen, ?_, ?_, ?_⟩
  · rintro ⟨k, hk⟩ h16
    rw [hlen, hk]
    omega
  · intro hle
    have h0 : (data.length + 7) / 8 - 2 = 0 := by omega
    simp [get_pattern, BYTES_PER_NOTE, h0]
  · intro i hi
    rw [hlen] at hi
    simp only [get_pattern, BYTES_PER_NOTE]
    simp [List.getD_eq_getElem?_getD, List.getElem?_map, List.getElem?_range, hi]

/-- C7 witness: a 24-byte file is a multiple of 8 holding the trailer, and
the parser reads `24/8 − 2 = 1` event. -/
theorem C7_amended_event_count_witness :
    ((8 : Nat) ∣ (List.replicate 24 0).length ∧
      16 ≤ (List.replicate 24 0).length)
  ∧ (get_pattern (List.replicate 24 0)).length =
      (List.replicate 24 0).length / 8 - 2 :=
  ⟨by decide,
   (C7_amended_event_count (List.replicate 24 0)).2.1 (by decide) (by decide)⟩

/-- C8 counterexample: the pad field of an event is an arbitrary byte the
resolver never range-checks, so pad 0 with bank_switch 0 resolves to the
logical sample index −46, which is outside 1..120 and misses every key of
the pad dictionary. -/
theorem C8_counterexample :
    notetuple_to_sample_number
      { delay := 0, pad := 0, bank_switch := 0, unknown2 := 0
        velocity := 0, unknown3 := 0, length := 0 } = Except.ok (-46)
  ∧ ¬(1 ≤ (-46 : Int) ∧ (-46 : Int) ≤ 120)
  ∧ pads120 (-46) = none :=
  ⟨rfl, by decide, rfl⟩

/-- C8 (amended): when the bank switch is valid and the pad byte lies in
the device's on-disk pad range 47..106, the resolved index lies in
1..120, and a pad-dictionary lookup with keys exactly 1..120 succeeds. -/
theorem C8_amended_index_range (e : Event) (sn : Int)
    (h : notetuple_to_sample_number e = Except.ok sn)
    (h1 : 47 ≤ e.pad) (h2 : e.pad ≤ 106) :
    (1 ≤ sn ∧ sn ≤ 120)
  ∧ (∀ pads : Int → Option Pad,
      (∀ k : Int, 1 ≤ k → k ≤ 120 → (pads k).isSome) → (pads sn).isSome) := by
  have hrange : 1 ≤ sn ∧ sn ≤ 120 := by
    unfold notetuple_to_sample_number at h
    by_cases hc : e.bank_switch = 64 ∨ e.bank_switch = 0
    · rw [if_pos hc] at h
      injection h with h3
      omega
    · rw [if_neg hc] at h
      by_cases hc2 : e.bank_switch = 65 ∨ e.bank_switch = 1
      · rw [if_pos hc2] at h
        injection h with h3
        simp only [PADS_PER_BANK] at h3
        omega
      · rw [if_neg hc2] at h
        exact absurd h (by simp)
  exact ⟨hrange, fun pads hdom => hdom sn hrange.1 hrange.2⟩

/-- C8 witness: pad 47 with bank_switch 0 resolves to index 1, inside
1..120, and the 1..120-keyed dictionary lookup succeeds. -/
theorem C8_amended_index_range_witness :
    (notetuple_to_sample_number
      { delay := 0, pad := 47, bank_switch := 0, unknown2 := 0
        velocity := 0, unknown3 := 0, length := 0 } = Except.ok 1
     ∧ 47 ≤ (47 : Nat) ∧ (47 : Nat) ≤ 106)
  ∧ ((1 ≤ (1 : Int) ∧ (1 : Int) ≤ 120) ∧ (pads120 1).isSome) :=
  ⟨⟨rfl, by decide, by decide⟩,
   ⟨(C8_amended_index_range
      { delay := 0, pad := 47, bank_switch := 0, unknown2 := 0
        velocity := 0, unknown3 := 0, length := 0 } 1 rfl
      (by decide) (by decide)).1,
    (C8_amended_index_range
      { delay := 0, pad := 47, bank_switch := 0, unknown2 := 0
        velocity := 0, unknown3 := 0, length := 0 } 1 rfl
      (by decide) (by decide)).2 pads120
      (fun k hk1 hk2 => by simp [pads120, hk1, hk2])⟩⟩

/-- C10 (claim): a rest event (`pad = 128`) is never decoded: no
bank-switch validation happens, no note is emitted, the pitch map and
tables are untouched, and the only effect is advancing the time cursor by
`delay / PPQ` — whatever its `bank_switch`, `velocity`, and `length`
fields hold. -/
theorem C10_rest_event (sampleformat path : String) (isfile : String → Bool)
    (pads : Int → Option Pad) (st : MidiState)
    (delay bank_switch unknown2 velocity unknown3 len : Nat) :
    step sampleformat path isfile pads st
      { delay := delay, pad := 128, bank_switch := bank_switch
        unknown2 := unknown2, velocity := velocity, unknown3 := unknown3
        length := len } =
      Except.ok { st with time_in_beats_for_next_note :=
        st.time_in_beats_for_next_note + (delay : ℚ) / (PPQ : ℚ) } := by
  simp [step, advanceTime]

end SP404SX
